import Mathlib

/-!
Verification of the oil-spill-detector spill-candidate evaluation pipeline
(services/oil-spill-detector/app: main.py, firestore_client.py, config.py).

The Python document values handled by the pipeline (Firestore document
bodies and GeoJSON feature dicts) are modelled by the inductive type PyVal:
numbers (int/float) as exact rationals, strings, lists, string-keyed dicts,
and the Python value None.  Raising an exception is modelled by the error
case of Except Unit; Not-Found results are the value Option.none inside a
successful Except.ok.
-/

/-- Model of a Python value as inspected by the pipeline: numbers carry an
exact rational, dicts are association lists keyed by strings. -/
inductive PyVal where
  | none : PyVal
  | num : ℚ → PyVal
  | str : String → PyVal
  | list : List PyVal → PyVal
  | dict : List (String × PyVal) → PyVal
deriving Inhabited

/-- Python v is None (identity test against the None singleton). -/
def isPyNone : PyVal → Bool
  | .none => true
  | _ => false

/-- First binding of a key in an association list, as Python dict lookup. -/
def dlookup : List (String × PyVal) → String → Option PyVal
  | [], _ => Option.none
  | (k, v) :: rest, key => if k = key then some v else dlookup rest key

/-- Python dict.get(key, dflt) on a known dict: stored value (even if it is
None) when the key is present, otherwise the default. -/
def dgetD (fs : List (String × PyVal)) (key : String) (dflt : PyVal) : PyVal :=
  (dlookup fs key).getD dflt

/-- Python dict.get(key) on a known dict: defaults to None. -/
def dget (fs : List (String × PyVal)) (key : String) : PyVal :=
  dgetD fs key PyVal.none

/-- Python v.get(key, dflt) on a computed value: raises AttributeError
(modelled as Except.error) when v is not a dict. -/
def vgetDflt (v : PyVal) (key : String) (dflt : PyVal) : Except Unit PyVal :=
  match v with
  | .dict fs => .ok (dgetD fs key dflt)
  | _ => .error ()

/-- Python v.get(key, \x7b\x7d) on a computed value. -/
def vgetD (v : PyVal) (key : String) : Except Unit PyVal :=
  vgetDflt v key (.dict [])

/-- Python v.get(key) on a computed value, defaulting to None. -/
def vget (v : PyVal) (key : String) : Except Unit PyVal :=
  match v with
  | .dict fs => .ok (dget fs key)
  | _ => .error ()

/-- Python truthiness for the modelled values: None, 0, the empty string,
the empty list and the empty dict are falsy. -/
def pyTruthy : PyVal → Bool
  | .none => false
  | .num q => q != 0
  | .str s => s != ""
  | .list xs => !xs.isEmpty
  | .dict fs => !fs.isEmpty

/-- Python v == s for a string literal s: equal strings compare equal, any
non-string value compares unequal (no exception). -/
def pyEqStr (v : PyVal) (s : String) : Bool :=
  match v with
  | .str t => t == s
  | _ => false

/-- Python v[i] for an integer index: raises (Except.error) on a non-list
value (TypeError) or an out-of-range index (IndexError). -/
def pyIndex (v : PyVal) (i : ℕ) : Except Unit PyVal :=
  match v with
  | .list xs => if h : i < xs.length then .ok (xs.get ⟨i, h⟩) else .error ()
  | _ => .error ()

/-- Numeric value of a digit list, most significant first. -/
def digitsVal (cs : List Char) : ℕ :=
  cs.foldl (fun acc c => acc * 10 + (c.toNat - 48)) 0

/-- Nonempty all-digit sequence, or parse failure. -/
def parseUnsignedDigits (cs : List Char) : Option ℕ :=
  if cs ≠ [] ∧ cs.all Char.isDigit then some (digitsVal cs) else none

/-- Mantissa of a Python float literal: digits with at most one dot and at
least one digit overall. -/
def parseMantissa (cs : List Char) : Option ℚ :=
  let sp := cs.span (fun c => c != '.')
  match sp.2 with
  | [] => (parseUnsignedDigits cs).map (fun n => (n : ℚ))
  | _ :: frac =>
    if frac.any (fun c => c == '.') then Option.none
    else if sp.1 = [] ∧ frac = [] then Option.none
    else if sp.1.all Char.isDigit ∧ frac.all Char.isDigit then
      some ((digitsVal sp.1 : ℚ) + (digitsVal frac : ℚ) / (10 : ℚ) ^ frac.length)
    else Option.none

/-- Signed exponent of a float literal. -/
def parseExp (cs : List Char) : Option ℤ :=
  match cs with
  | '+' :: rest => (parseUnsignedDigits rest).map (fun n => (n : ℤ))
  | '-' :: rest => (parseUnsignedDigits rest).map (fun n => -(n : ℤ))
  | _ => (parseUnsignedDigits cs).map (fun n => (n : ℤ))

/-- Unsigned float literal with optional exponent part. -/
def parseFloatCore (cs : List Char) : Option ℚ :=
  let se := cs.span (fun c => c != 'e' && c != 'E')
  match se.2 with
  | [] => parseMantissa cs
  | _ :: ex => do
    let m ← parseMantissa se.1
    let e ← parseExp ex
    pure (m * (10 : ℚ) ^ e)

/-- Leading and trailing whitespace removal (Python str strip). -/
def trimChars (cs : List Char) : List Char :=
  ((cs.dropWhile Char.isWhitespace).reverse.dropWhile Char.isWhitespace).reverse

/-- Grammar accepted by Python float(str), modelled for the shapes the
pipeline meets: surrounding whitespace, optional sign, decimal digits with
an optional dot and an optional exponent.  Special spellings (inf, nan,
underscores) are outside the model. -/
def parseDecimal? (s : String) : Option ℚ :=
  match trimChars s.toList with
  | '+' :: cs => parseFloatCore cs
  | '-' :: cs => (parseFloatCore cs).map Neg.neg
  | cs => parseFloatCore cs

/-- Python float(v): identity on numbers, parse on strings, raises
(Except.error, a ValueError or TypeError) otherwise. -/
def pyFloat (v : PyVal) : Except Unit ℚ :=
  match v with
  | .num q => .ok q
  | .str s =>
    match parseDecimal? s with
    | some q => .ok q
    | Option.none => .error ()
  | _ => .error ()

/-!  Coordinate resolver: firestore_client.pick_latlng.  -/

/-- The candidate field-path list of pick_latlng (firestore_client.py lines
7 to 18), evaluated eagerly; an intermediate .get on a non-dict stored
value raises before the selection loop runs. -/
def latlngCandidates (doc : List (String × PyVal)) : Except Unit (List PyVal) := do
  let t1 ← vgetD (dgetD doc "phase1" (PyVal.dict [])) "screening"
  let c1 ← vget t1 "coordinates"
  let c2 := dget doc "coordinates"
  let c3 ← vget (dgetD doc "location" (PyVal.dict [])) "coordinates"
  let t4 ← vgetD (dgetD doc "historical" (PyVal.dict [])) "location"
  let c4 ← vget t4 "coordinates"
  let c5 ← vget (dgetD doc "geometry" (PyVal.dict [])) "coordinates"
  let c6 ← vget (dgetD doc "geo" (PyVal.dict [])) "coordinates"
  let c7 ← vget (dgetD doc "position" (PyVal.dict [])) "coordinates"
  let c8 := dget doc "geo"
  let c9 := dget doc "position"
  let c10 := dget doc "geometry"
  pure [c1, c2, c3, c4, c5, c6, c7, c8, c9, c10]

/-- Python c.get(k1, c.get(k2)) on a dict body. -/
def dget2 (fs : List (String × PyVal)) (k1 k2 : String) : PyVal :=
  match dlookup fs k1 with
  | some v => v
  | Option.none => dget fs k2

/-- The selection loop of pick_latlng (firestore_client.py lines 19+30):
skip None, a list of length at least 2 resolves as pair
lng = float(c[0]), lat = float(c[1]) and the result is (lat, lng); a dict
resolves through lat/latitude and lng/longitude keys; anything else is
skipped.  Conversion failures raise (Except.error). -/
def pickLoop : List PyVal → Except Unit (Option (ℚ × ℚ))
  | [] => .ok Option.none
  | c :: rest =>
    match c with
    | .list (c0 :: c1 :: _) => do
      let lng ← pyFloat c0
      let lat ← pyFloat c1
      pure (some (lat, lng))
    | .dict fs =>
      let lat := dget2 fs "lat" "latitude"
      let lng := dget2 fs "lng" "longitude"
      if !(isPyNone lat) && !(isPyNone lng) then do
        let la ← pyFloat lat
        let ln ← pyFloat lng
        pure (some (la, ln))
      else pickLoop rest
    | _ => pickLoop rest

/-- firestore_client.pick_latlng: Except.ok Option.none models the Python
return value None (coordinates not found); Except.error models an
uncaught exception escaping to the caller. -/
def pick_latlng (doc : List (String × PyVal)) : Except Unit (Option (ℚ × ℚ)) := do
  let cs ← latlngCandidates doc
  pickLoop cs

/-!  Geospatial utilities: main.haversine_km (main.py lines 13 to 22).
Python floats are modelled as real numbers. -/

/-- math.radians: degrees to radians. -/
noncomputable def radians (deg : ℝ) : ℝ := deg * Real.pi / 180

/-- math.atan2 on the reals, by quadrant. -/
noncomputable def atan2 (y x : ℝ) : ℝ :=
  if 0 < x then Real.arctan (y / x)
  else if x < 0 ∧ 0 ≤ y then Real.arctan (y / x) + Real.pi
  else if x < 0 ∧ y < 0 then Real.arctan (y / x) - Real.pi
  else if x = 0 ∧ 0 < y then Real.pi / 2
  else if x = 0 ∧ y < 0 then -(Real.pi / 2)
  else 0

/-- The intermediate s of haversine_km (main.py line 20), for positions
given as (latitude, longitude) in degrees. -/
noncomputable def havS (a b : ℝ × ℝ) : ℝ :=
  Real.sin (radians (b.1 - a.1) / 2) ^ 2 +
    Real.cos (radians a.1) * Real.cos (radians b.1) *
      Real.sin (radians (b.2 - a.2) / 2) ^ 2

/-- main.haversine_km: great-circle distance with Earth radius 6371.0 km. -/
noncomputable def haversine_km (a b : ℝ × ℝ) : ℝ :=
  6371.0 * (2 * atan2 (Real.sqrt (havS a b)) (Real.sqrt (1 - havS a b)))

/-!  Configuration (config.py) and severity classification (main.py lines
80 to 87). -/

/-- The threshold configuration of config.py; the defaults there are
0.5, 5, 0.2, 10. -/
structure Config where
  CRITICAL_AREA_KM2 : ℝ
  CRITICAL_DIST_KM : ℝ
  WARN_AREA_KM2 : ℝ
  WARN_DIST_KM : ℝ

/-- The config.py default thresholds. -/
noncomputable def configDefaults : Config :=
  { CRITICAL_AREA_KM2 := 0.5, CRITICAL_DIST_KM := 5,
    WARN_AREA_KM2 := 0.2, WARN_DIST_KM := 10 }

open Classical in
/-- The severity assignment of main.py lines 83 to 87: an if/elif chain
over the strings critical, warning, info. -/
noncomputable def severity (cfg : Config) (area_km2 distance_km : ℝ) : String :=
  if area_km2 ≥ cfg.CRITICAL_AREA_KM2 ∧ distance_km ≤ cfg.CRITICAL_DIST_KM then "critical"
  else if area_km2 ≥ cfg.WARN_AREA_KM2 ∧ distance_km ≤ cfg.WARN_DIST_KM then "warning"
  else "info"

/-- The exceeded flag of main.py lines 80 to 81: the disjunction of the
critical and warning conjunctions, computed independently of severity. -/
def exceededProp (cfg : Config) (area_km2 distance_km : ℝ) : Prop :=
  (area_km2 ≥ cfg.CRITICAL_AREA_KM2 ∧ distance_km ≤ cfg.CRITICAL_DIST_KM) ∨
    (area_km2 ≥ cfg.WARN_AREA_KM2 ∧ distance_km ≤ cfg.WARN_DIST_KM)

/-!  Candidate metrics extraction (main.py lines 51 to 78) and event
construction (main.py lines 89 to 107). -/

/-- The condition geom and geom.get("type") in tys: short-circuit
truthiness first, then attribute access (raising on a truthy non-dict),
then string comparison, false for a non-string type value. -/
def checkGeomType (geom : PyVal) (tys : List String) : Except Unit Bool :=
  if pyTruthy geom then do
    let t ← vget geom "type"
    pure (tys.any (fun s => pyEqStr t s))
  else pure false

/-- main.py lines 57 to 66: area_km2 is left None in every branch (the
server-side estimator is a placeholder), then the nominal default 0.25
is substituted. -/
noncomputable def candidateArea (geom : PyVal) : Except Unit ℝ := do
  let isPoly ← checkGeomType geom ["Polygon", "MultiPolygon"]
  let a : Option ℝ := if isPoly then Option.none else Option.none
  pure (a.getD 0.25)

/-- main.py lines 69 to 73: the representative vertex.  For a Polygon the
expression geom.get("coordinates", [[]])[0][0] is evaluated, for a
MultiPolygon geom.get("coordinates", [[[]]])[0][0][0]; each indexing can
raise IndexError, including on the fallback defaults themselves. -/
def candidateCoords (geom : PyVal) : Except Unit PyVal := do
  let isP ← checkGeomType geom ["Polygon"]
  if isP then do
    let c ← vgetDflt geom "coordinates" (PyVal.list [PyVal.list []])
    let c0 ← pyIndex c 0
    pyIndex c0 0
  else do
    let isMP ← checkGeomType geom ["MultiPolygon"]
    if isMP then do
      let c ← vgetDflt geom "coordinates" (PyVal.list [PyVal.list [PyVal.list []]])
      let c0 ← pyIndex c 0
      let c00 ← pyIndex c0 0
      pyIndex c00 0
    else pure PyVal.none

/-- main.py lines 74 to 78: when the representative vertex is a list of at
least two members, its first two entries are converted as longitude and
latitude and the haversine distance from the wreck is taken; otherwise
the distance defaults to 0.0. -/
noncomputable def candidateDistance (geom : PyVal) (lat lng : ℝ) : Except Unit ℝ := do
  let coords ← candidateCoords geom
  match coords with
  | .list xs =>
    if 2 ≤ xs.length then do
      let plng ← pyFloat (xs.getD 0 PyVal.none)
      let plat ← pyFloat (xs.getD 1 PyVal.none)
      pure (haversine_km (lat, lng) ((plat : ℝ), (plng : ℝ)))
    else pure 0.0
  | _ => pure 0.0

/-- Truncation toward zero of a real, as Python int() on a float. -/
noncomputable def pyTrunc (x : ℝ) : ℤ :=
  if 0 ≤ x then ⌊x⌋ else ⌈x⌉

/-- Truncation toward zero of a rational, as Python int() on a float. -/
def qTrunc (q : ℚ) : ℤ :=
  if 0 ≤ q then ⌊q⌋ else ⌈q⌉

/-- Integer literal accepted by Python int(str): whitespace, sign, digits. -/
def parseIntStr? (s : String) : Option ℤ :=
  match trimChars s.toList with
  | '+' :: cs => (parseUnsignedDigits cs).map (fun n => (n : ℤ))
  | '-' :: cs => (parseUnsignedDigits cs).map (fun n => -(n : ℤ))
  | cs => (parseUnsignedDigits cs).map (fun n => (n : ℤ))

/-- Python int(v): truncation on numbers, strict integer parse on strings,
raises otherwise. -/
def pyToInt (v : PyVal) : Except Unit ℤ :=
  match v with
  | .num q => .ok (qTrunc q)
  | .str s =>
    match parseIntStr? s with
    | some z => .ok z
    | Option.none => .error ()
  | _ => .error ()

/-- main.py line 55: int(props.get("timeMs") or now_ms).  A falsy timeMs
value (absent, None, or 0) is replaced by the current clock now_ms, which
is already an integer. -/
def timeMsVal (v : PyVal) (now_ms : ℤ) : Except Unit ℤ :=
  if pyTruthy v then pyToInt v else .ok now_ms

/-- Python str(v) as used by the id f-string of main.py line 91: exact for
strings and for None; the imagery adapter sets imageId to a string image
id, so numeric or container renderings (approximated here) never arise. -/
def pyStr : PyVal → String
  | .str s => s
  | .none => "None"
  | .num q => toString q
  | .list _ => "[...]"
  | .dict _ => "{...}"

/-- main.py line 91: the event document id
f-string imageId, hyphen, int(distance_km * 1000). -/
noncomputable def event_id (image_id : PyVal) (distance_km : ℝ) : String :=
  pyStr image_id ++ "-" ++ toString (pyTrunc (distance_km * 1000))

/-- The persisted event payload of main.py lines 92 to 106.  The message
and thumbUrl strings are operator-facing text not modelled here. -/
structure SpillEvent where
  source : String
  imageId : PyVal
  timeMs : ℤ
  area_km2 : ℝ
  distance_km : ℝ
  exceeded : Prop
  severity : String
  geometry : PyVal
  thresholdWarn : ℝ × ℝ
  thresholdCritical : ℝ × ℝ
  createdAtMs : ℤ

/-- The body of the per-feature loop, main.py lines 51 to 106: extract
geometry and properties, default the timestamp, compute metrics, classify,
and assemble the event together with its deterministic id. -/
noncomputable def processFeature (cfg : Config) (lat lng : ℝ) (now_ms : ℤ)
    (f : PyVal) : Except Unit (String × SpillEvent) := do
  let geom ← vgetD f "geometry"
  let props ← vgetD f "properties"
  let image_id ← vget props "imageId"
  let tmv ← vget props "timeMs"
  let time_ms ← timeMsVal tmv now_ms
  let area_km2 ← candidateArea geom
  let distance_km ← candidateDistance geom lat lng
  let exc := exceededProp cfg area_km2 distance_km
  let sev := severity cfg area_km2 distance_km
  let id := event_id image_id distance_km
  pure (id,
    { source := "sentinel-1"
      imageId := image_id
      timeMs := time_ms
      area_km2 := area_km2
      distance_km := distance_km
      exceeded := exc
      severity := sev
      geometry := geom
      thresholdWarn := (cfg.WARN_AREA_KM2, cfg.WARN_DIST_KM)
      thresholdCritical := (cfg.CRITICAL_AREA_KM2, cfg.CRITICAL_DIST_KM)
      createdAtMs := now_ms })

/-- One performed write against the external store:
document path wreckPath/monitoring/oil/events/eventId, merge semantics. -/
structure WriteRec where
  wreckPath : String
  eventId : String
  event : SpillEvent

/-- A wreck record as assembled by firestore_client.read_wrecks: its store
path and the resolved coordinates (None when resolution found nothing). -/
structure Wreck where
  path : String
  latlng : Option (ℚ × ℚ)

/-- The per-wreck feature loop of main.py lines 51 to 108, with the store
write modelled by the injected outcome writeRes and the performed writes
accumulated in store.  An exception from feature processing or from a
write aborts immediately (the only handler is the run-level one). -/
noncomputable def processFeatures (cfg : Config)
    (writeRes : String → String → Except Unit Unit) (path : String)
    (lat lng : ℝ) (now_ms : ℤ) :
    List PyVal → ℕ → List WriteRec → Except Unit ℕ × List WriteRec
  | [], processed, store => (.ok processed, store)
  | f :: rest, processed, store =>
    match processFeature cfg lat lng now_ms f with
    | .error e => (.error e, store)
    | .ok (id, ev) =>
      match writeRes path id with
      | .error e => (.error e, store)
      | .ok _ =>
        processFeatures cfg writeRes path lat lng now_ms rest (processed + 1)
          (store ++ [⟨path, id, ev⟩])

/-- The wreck loop of main.py lines 37 to 108: wrecks without resolved
coordinates are skipped; detection is the injected external imagery query
detect. -/
noncomputable def processWrecks (cfg : Config) (detect : ℚ → ℚ → List PyVal)
    (writeRes : String → String → Except Unit Unit) (now_ms : ℤ) :
    List Wreck → ℕ → List WriteRec → Except Unit ℕ × List WriteRec
  | [], processed, store => (.ok processed, store)
  | w :: rest, processed, store =>
    match w.latlng with
    | Option.none => processWrecks cfg detect writeRes now_ms rest processed store
    | some (qlat, qlng) =>
      match processFeatures cfg writeRes w.path (qlat : ℝ) (qlng : ℝ) now_ms
          (detect qlat qlng) processed store with
      | (.error e, st) => (.error e, st)
      | (.ok p, st) => processWrecks cfg detect writeRes now_ms rest p st

/-- The body of the run handler (main.py lines 28 to 112): the try block
processes every wreck; the first uncaught exception ends the run with the
500 error response (.error), and the writes already performed remain. -/
noncomputable def runService (cfg : Config) (detect : ℚ → ℚ → List PyVal)
    (writeRes : String → String → Except Unit Unit) (wrecks : List Wreck)
    (now_ms : ℤ) : Except Unit ℕ × List WriteRec :=
  processWrecks cfg detect writeRes now_ms wrecks 0 []

/-!  Theorems. -/

lemma pickLoop_numeric_head (q1 q2 : ℚ) (vs rest : List PyVal) :
    pickLoop (PyVal.list (PyVal.num q1 :: PyVal.num q2 :: vs) :: rest)
      = Except.ok (some (q2, q1)) := rfl

/-- C5: the resolver probes the field paths in a fixed priority order and
the first path with two numeric values wins: given both a screening-phase
pair and a top-level pair, the screening-phase pair q1, q2 is resolved,
interpreted as longitude q1 and latitude q2, with no merging with the
top-level pair q3, q4. -/
theorem pick_latlng_priority_screening_first (q1 q2 q3 q4 : ℚ) :
    pick_latlng [("phase1", PyVal.dict [("screening", PyVal.dict [("coordinates",
        PyVal.list [PyVal.num q1, PyVal.num q2])])]),
      ("coordinates", PyVal.list [PyVal.num q3, PyVal.num q4])]
    = Except.ok (some (q2, q1)) := rfl

/-- C9: a coordinate list with numeric first two elements resolves from
elements 0 and 1 alone, as longitude then latitude; any further elements
(such as a depth value, of any shape) are ignored. -/
theorem pick_latlng_ignores_extra_elements (q1 q2 : ℚ) (vs : List PyVal) :
    pick_latlng [("coordinates", PyVal.list (PyVal.num q1 :: PyVal.num q2 :: vs))]
      = Except.ok (some (q2, q1)) :=
  pickLoop_numeric_head q1 q2 vs
    [PyVal.none, PyVal.none, PyVal.none, PyVal.none, PyVal.none, PyVal.none,
      PyVal.none, PyVal.none]

/-- C3 counterexample: a record whose first matching coordinate field is a
list led by the malformed numeric string abc makes pick_latlng raise
(Except.error), which is not the NotFound result (Except.ok none) that the
claim requires. -/
theorem pick_latlng_malformed_string_raises_cex :
    pick_latlng [("coordinates", PyVal.list [PyVal.str "abc", PyVal.num 1])]
        = Except.error () ∧
      pick_latlng [("coordinates", PyVal.list [PyVal.str "abc", PyVal.num 1])]
        ≠ Except.ok Option.none := by
  refine ⟨rfl, ?_⟩
  rw [show pick_latlng [("coordinates", PyVal.list [PyVal.str "abc", PyVal.num 1])]
      = Except.error () from rfl]
  exact fun h => Except.noConfusion h

/-- C3 amended: when the first matching coordinate field holds a list whose
first element is a string that is not convertible to a number, resolution
raises the conversion error to the caller instead of returning NotFound. -/
theorem pick_latlng_malformed_string_raises (s : String) (v : PyVal)
    (vs : List PyVal) (h : parseDecimal? s = Option.none) :
    pick_latlng [("coordinates", PyVal.list (PyVal.str s :: v :: vs))]
      = Except.error () := by
  show (match parseDecimal? s with
    | some q => Except.ok q
    | Option.none => Except.error ()).bind _ = Except.error ()
  rw [h]
  rfl

/-- C3 witness: the amended theorem applied to the unconvertible string 12a. -/
theorem pick_latlng_malformed_string_raises_witness :
    pick_latlng [("coordinates", PyVal.list [PyVal.str "12a", PyVal.str "5"])]
      = Except.error () :=
  pick_latlng_malformed_string_raises "12a" (PyVal.str "5") [] rfl

/-- C10: a timeMs property that is absent, None, or exactly 0 is falsy for
the or-expression of main.py line 55, so the event timestamp becomes the
evaluation-time clock now, silently replacing a genuine timestamp of 0. -/
theorem timeMs_falsy_replaced_by_clock (now : ℤ)
    (props : List (String × PyVal)) :
    timeMsVal PyVal.none now = Except.ok now ∧
    timeMsVal (PyVal.num 0) now = Except.ok now ∧
    (dlookup props "timeMs" = Option.none →
      timeMsVal (dget props "timeMs") now = Except.ok now) := by
  refine ⟨rfl, rfl, ?_⟩
  intro h
  unfold dget dgetD
  rw [h]
  rfl

/-- C10 witness: the theorem applied at clock 99 and a property dict
without a timeMs key. -/
theorem timeMs_falsy_replaced_by_clock_witness :
    timeMsVal (dget [("x", PyVal.num 1)] "timeMs") 99 = Except.ok 99 :=
  (timeMs_falsy_replaced_by_clock 99 [("x", PyVal.num 1)]).2.2 rfl

/-- C6 (code bug evidence): for a Polygon whose coordinates list is empty,
and even for a Polygon or MultiPolygon with the coordinates key missing
(where the fallback defaults of main.py lines 71 and 73 are themselves
indexed out of range), the representative-vertex expression raises
IndexError rather than yielding the nominal defaults, so the distance
computation raises instead of returning 0.0. -/
theorem candidate_empty_coordinates_raises :
    candidateDistance (PyVal.dict [("type", PyVal.str "Polygon"),
        ("coordinates", PyVal.list [])]) 0 0 = Except.error () ∧
    candidateDistance (PyVal.dict [("type", PyVal.str "Polygon")]) 0 0
      = Except.error () ∧
    candidateDistance (PyVal.dict [("type", PyVal.str "MultiPolygon")]) 0 0
      = Except.error () := ⟨rfl, rfl, rfl⟩

/-- C1: for every threshold configuration the if/elif chain yields critical
exactly on the critical conjunction, warning exactly on the warning
conjunction outside the critical one, and info exactly otherwise; the
three characterizations make the tiers mutually exclusive and exhaustive
with first match winning. -/
theorem severity_tier_characterization (cfg : Config) (a d : ℝ) :
    (severity cfg a d = "critical" ↔
      a ≥ cfg.CRITICAL_AREA_KM2 ∧ d ≤ cfg.CRITICAL_DIST_KM) ∧
    (severity cfg a d = "warning" ↔
      ¬(a ≥ cfg.CRITICAL_AREA_KM2 ∧ d ≤ cfg.CRITICAL_DIST_KM) ∧
        (a ≥ cfg.WARN_AREA_KM2 ∧ d ≤ cfg.WARN_DIST_KM)) ∧
    (severity cfg a d = "info" ↔
      ¬(a ≥ cfg.CRITICAL_AREA_KM2 ∧ d ≤ cfg.CRITICAL_DIST_KM) ∧
        ¬(a ≥ cfg.WARN_AREA_KM2 ∧ d ≤ cfg.WARN_DIST_KM)) := by
  have hcw : ("critical" : String) ≠ "warning" := by decide
  have hci : ("critical" : String) ≠ "info" := by decide
  have hwi : ("warning" : String) ≠ "info" := by decide
  unfold severity
  split_ifs with h1 h2 <;> simp_all

/-- C7: the exceeded flag, computed as the independent disjunction of the
critical and warning conjunctions, holds exactly when the if/elif
classification yields a non-info severity. -/
theorem exceeded_iff_severity_not_info (cfg : Config) (a d : ℝ) :
    exceededProp cfg a d ↔ severity cfg a d ≠ "info" := by
  have hci : ("critical" : String) ≠ "info" := by decide
  have hwi : ("warning" : String) ≠ "info" := by decide
  unfold exceededProp severity
  split_ifs with h1 h2 <;> simp_all

/-- C2: the event id is the concatenation of the rendered source-image id,
a hyphen, and the truncation of distance_km * 1000; it is a function of
the image id and that truncated distance alone, so rebuilding from the
same candidate and the same computed distance (at any other evaluation
moment) yields the identical id. -/
theorem event_id_shape_and_determinism (img : PyVal) (d d' : ℝ)
    (h : pyTrunc (d' * 1000) = pyTrunc (d * 1000)) :
    event_id img d = pyStr img ++ "-" ++ toString (pyTrunc (d * 1000)) ∧
    event_id img d' = event_id img d := by
  refine ⟨rfl, ?_⟩
  unfold event_id
  rw [h]

/-- C2 witness: two distances agreeing after millimeter truncation,
1.2341 km and 1.2345 km, give the same event id. -/
theorem event_id_shape_and_determinism_witness :
    event_id (PyVal.str "S1A") (1.2345 : ℝ) = event_id (PyVal.str "S1A") (1.2341 : ℝ) := by
  have hfl : ∀ x : ℝ, (1234 : ℝ) ≤ x → x < 1235 → ⌊x⌋ = (1234 : ℤ) := by
    intro x h1 h2
    rw [Int.floor_eq_iff]
    constructor
    · exact_mod_cast h1
    · push_cast
      linarith
  have h : pyTrunc ((1.2345 : ℝ) * 1000) = pyTrunc ((1.2341 : ℝ) * 1000) := by
    unfold pyTrunc
    rw [if_pos (by norm_num), if_pos (by norm_num),
      hfl _ (by norm_num) (by norm_num), hfl _ (by norm_num) (by norm_num)]
  exact (event_id_shape_and_determinism (PyVal.str "S1A") 1.2341 1.2345 h).2

/-!  Great-circle distance lemmas. -/

lemma radians_zero : radians 0 = 0 := by
  unfold radians
  ring

lemma havS_self (a : ℝ × ℝ) : havS a a = 0 := by
  unfold havS
  simp [sub_self, radians_zero]

lemma havS_comm (a b : ℝ × ℝ) : havS a b = havS b a := by
  unfold havS radians
  have h : ∀ x y : ℝ, Real.sin ((x - y) * Real.pi / 180 / 2) ^ 2
      = Real.sin ((y - x) * Real.pi / 180 / 2) ^ 2 := by
    intro x y
    rw [show (x - y) * Real.pi / 180 / 2 = -((y - x) * Real.pi / 180 / 2) by ring,
      Real.sin_neg]
    ring
  rw [h b.1 a.1, h b.2 a.2]
  ring

lemma atan2_zero_one : atan2 0 1 = 0 := by
  unfold atan2
  rw [if_pos one_pos]
  simp

lemma haversine_of_havS_eq_zero {a b : ℝ × ℝ} (h : havS a b = 0) :
    haversine_km a b = 0 := by
  unfold haversine_km
  rw [h]
  simp [atan2_zero_one]

/-- C8 amended: the distance is symmetric and vanishes on the diagonal;
the claimed converse (zero only when the endpoints coincide) is false, see
the counterexample at the pole. -/
theorem haversine_symm_and_self_zero :
    (∀ a b : ℝ × ℝ, haversine_km a b = haversine_km b a) ∧
    (∀ a : ℝ × ℝ, haversine_km a a = 0) := by
  constructor
  · intro a b
    unfold haversine_km
    rw [havS_comm]
  · intro a
    exact haversine_of_havS_eq_zero (havS_self a)

/-- C8 counterexample: the two distinct positions (90, 0) and (90, 1) at
the pole are at haversine distance 0, refuting the zero-iff-equal part of
the claim. -/
theorem haversine_zero_at_distinct_points :
    haversine_km (90, 0) (90, 1) = 0 ∧
      ((90 : ℝ), (0 : ℝ)) ≠ ((90 : ℝ), (1 : ℝ)) := by
  constructor
  · apply haversine_of_havS_eq_zero
    show Real.sin (radians ((90 : ℝ) - 90) / 2) ^ 2 +
        Real.cos (radians 90) * Real.cos (radians 90) *
          Real.sin (radians ((1 : ℝ) - 0) / 2) ^ 2 = 0
    rw [show ((90 : ℝ) - 90) = 0 by norm_num, radians_zero,
      show radians 90 = Real.pi / 2 by unfold radians; ring]
    simp
  · intro h
    have h2 := congrArg Prod.snd h
    norm_num at h2

/-!  Orchestrator abort behaviour on a failed persistence write. -/

/-- All-zero thresholds, used to evaluate the pipeline on the nominal
default metrics. -/
noncomputable def cfgZero : Config := ⟨0, 0, 0, 0⟩

/-- The event built at clock 7 from an empty feature dict under cfgZero:
nominal area 0.25, distance 0.0, which meets the critical conjunction of
the all-zero thresholds. -/
noncomputable def evEmptyFeature : SpillEvent :=
  { source := "sentinel-1", imageId := PyVal.none, timeMs := 7,
    area_km2 := 0.25, distance_km := 0.0,
    exceeded := exceededProp cfgZero 0.25 0.0,
    severity := "critical", geometry := PyVal.dict [],
    thresholdWarn := (0, 0), thresholdCritical := (0, 0),
    createdAtMs := 7 }

lemma processFeature_emptyDict (lat lng : ℝ) :
    processFeature cfgZero lat lng 7 (PyVal.dict [])
      = Except.ok ("None-0", evEmptyFeature) := by
  have hc : (0.25 : ℝ) ≥ cfgZero.CRITICAL_AREA_KM2 ∧
      (0.0 : ℝ) ≤ cfgZero.CRITICAL_DIST_KM := by
    constructor
    · show (0.25 : ℝ) ≥ 0
      norm_num
    · show (0.0 : ℝ) ≤ 0
      norm_num
  have hsev : severity cfgZero 0.25 0.0 = "critical" := by
    unfold severity
    rw [if_pos hc]
  have hid : event_id PyVal.none 0.0 = "None-0" := by
    unfold event_id
    have ht : pyTrunc ((0.0 : ℝ) * 1000) = 0 := by
      unfold pyTrunc
      rw [if_pos (by norm_num), show (0.0 : ℝ) * 1000 = 0 by norm_num,
        Int.floor_zero]
    rw [ht]
    rfl
  calc processFeature cfgZero lat lng 7 (PyVal.dict [])
      = Except.ok (event_id PyVal.none 0.0,
          { source := "sentinel-1", imageId := PyVal.none, timeMs := 7,
            area_km2 := 0.25, distance_km := 0.0,
            exceeded := exceededProp cfgZero 0.25 0.0,
            severity := severity cfgZero 0.25 0.0,
            geometry := PyVal.dict [],
            thresholdWarn := (0, 0), thresholdCritical := (0, 0),
            createdAtMs := 7 }) := rfl
    _ = Except.ok ("None-0", evEmptyFeature) := by
      rw [hsev, hid]
      rfl

lemma processFeatures_write_abort (cfg : Config)
    (writeRes : String → String → Except Unit Unit) (path : String)
    (lat lng : ℝ) (now : ℤ) (f : PyVal) (rest : List PyVal) (processed : ℕ)
    (store : List WriteRec) (id : String) (ev : SpillEvent)
    (h1 : processFeature cfg lat lng now f = Except.ok (id, ev))
    (h2 : writeRes path id = Except.error ()) :
    processFeatures cfg writeRes path lat lng now (f :: rest) processed store
      = (Except.error (), store) := by
  unfold processFeatures
  split
  · rfl
  · next id2 ev2 heq =>
    rw [h1] at heq
    injection heq with h3
    injection h3 with hid hev
    subst hid
    subst hev
    split
    · rfl
    · next u heq2 =>
      rw [h2] at heq2
      cases heq2

/-- C4 amended: a failed persistence write is not contained per event; the
exception propagates out of the candidate loop, so the run aborts with the
store unchanged and the remaining candidates of the run never processed. -/
theorem write_failure_aborts_run (cfg : Config)
    (writeRes : String → String → Except Unit Unit) (path : String)
    (lat lng : ℝ) (now : ℤ) (f : PyVal) (rest : List PyVal) (processed : ℕ)
    (store : List WriteRec) (id : String) (ev : SpillEvent)
    (h1 : processFeature cfg lat lng now f = Except.ok (id, ev))
    (h2 : writeRes path id = Except.error ()) :
    processFeatures cfg writeRes path lat lng now (f :: rest) processed store
      = (Except.error (), store) :=
  processFeatures_write_abort cfg writeRes path lat lng now f rest processed
    store id ev h1 h2

/-- C4 witness: under all-zero thresholds, with a store whose every write
fails, the loop over an empty feature dict followed by another candidate
aborts immediately with nothing written. -/
theorem write_failure_aborts_run_witness :
    processFeatures cfgZero (fun _ _ => Except.error ())
      "artifacts/guardian/w1" 0 0 7 [PyVal.dict [], PyVal.num 0] 0 []
      = (Except.error (), []) :=
  write_failure_aborts_run cfgZero (fun _ _ => Except.error ())
    "artifacts/guardian/w1" 0 0 7 (PyVal.dict []) [PyVal.num 0] 0 []
    "None-0" evEmptyFeature (processFeature_emptyDict 0 0) rfl

lemma processWrecks_cons_some (cfg : Config) (detect : ℚ → ℚ → List PyVal)
    (writeRes : String → String → Except Unit Unit) (now : ℤ) (path : String)
    (qlat qlng : ℚ) (rest : List Wreck) (processed : ℕ)
    (store : List WriteRec) :
    processWrecks cfg detect writeRes now
        (⟨path, some (qlat, qlng)⟩ :: rest) processed store
      = match processFeatures cfg writeRes path (qlat : ℝ) (qlng : ℝ) now
          (detect qlat qlng) processed store with
        | (.error e, st) => (.error e, st)
        | (.ok p, st) => processWrecks cfg detect writeRes now rest p st := rfl

lemma processFeatures_two_abort (lat lng : ℝ) :
    processFeatures cfgZero (fun _ _ => Except.error ())
      "artifacts/guardian/w1" lat lng 7 [PyVal.dict [], PyVal.num 0] 0 []
      = (Except.error (), []) :=
  processFeatures_write_abort cfgZero (fun _ _ => Except.error ())
    "artifacts/guardian/w1" lat lng 7 (PyVal.dict []) [PyVal.num 0] 0 []
    "None-0" evEmptyFeature (processFeature_emptyDict lat lng) rfl

/-- C4 counterexample: one wreck with two detected candidates and a store
whose writes fail; the claim requires the run to continue with the second
candidate, but the whole run aborts with the error result and an empty
store, the second candidate never processed. -/
theorem run_aborts_on_write_failure_cex :
    runService cfgZero (fun _ _ => [PyVal.dict [], PyVal.num 0])
      (fun _ _ => Except.error ()) [⟨"artifacts/guardian/w1", some (0, 0)⟩] 7
      = (Except.error (), []) := by
  unfold runService
  rw [processWrecks_cons_some]
  simp only [processFeatures_two_abort]
